/-
  Verification of the timecontrol Arduino library (timecontrol.h / timecontrol.cpp)
  against its natural-language specification.

  The timecontrol class is a single stateful object over two monotonic clocks
  (millis, ms; micros, us).  We embed it shallowly: each uint32_t field becomes
  a Nat that every operation stores reduced mod 2^32, each uint8_t becomes a
  Nat reduced mod 2^8, the two clock reads of an operation become explicit
  `now` / `nowMicros` arguments, and the two optional function-pointer
  callbacks become presence flags plus an emitted event list recording which
  callbacks fired, in which order, and with which argument.  Division by zero
  (undefined behaviour in C++) is embedded as `Option.none`; signed int32_t
  overflow (also UB) likewise.
-/

import Mathlib

set_option maxRecDepth 10000

namespace Timecontrol

/-- The modulus of `uint32_t` arithmetic, 2^32. -/
def M32 : Nat := 4294967296

/-- Unsigned `uint32_t` subtraction `a - b` (wraparound-safe unsigned subtraction, as used
for all tick comparisons in the source). -/
def sub32 (a b : Nat) : Nat := (a % M32 + M32 - b % M32) % M32

/-- Constant `const uint16_t SECONDS_PER_DAY = 86400;` — the initializer 86400 does not
fit in `uint16_t`, so the stored value is 86400 mod 2^16 = 20864. -/
def SECONDS_PER_DAY : Nat := 86400 % 65536

/-- Constant `const uint16_t SECONDS_PER_HOUR = 3600;` (fits). -/
def SECONDS_PER_HOUR : Nat := 3600

/-- Constant `const uint8_t SECONDS_PER_MINUTE = 60;` (fits). -/
def SECONDS_PER_MINUTE : Nat := 60

/-- Decimal rendering padded to width 2, the effect of the `"%02d"` conversion
used by `snprintf` in `secToTime` (all padded arguments are < 100 there). -/
def pad2 (n : Nat) : String := if n < 10 then "0" ++ toString n else toString n

/-- Method `timecontrol::secToTime` (timecontrol.cpp lines 75–87).
`days` is stored in a `uint16_t`, `hours`/`minutes`/`seconds` in `uint8_t`;
the argument is a `uint32_t`. -/
def secToTime (sec : Nat) : String :=
  let s := sec % M32
  let days := s / SECONDS_PER_DAY % 65536
  let hours := s % SECONDS_PER_DAY / SECONDS_PER_HOUR % 256
  let minutes := s % SECONDS_PER_HOUR / SECONDS_PER_MINUTE % 256
  let seconds := s % SECONDS_PER_MINUTE % 256
  if days > 0 then
    toString days ++ ":" ++ pad2 hours ++ ":" ++ pad2 minutes ++ ":" ++ pad2 seconds
  else
    pad2 hours ++ ":" ++ pad2 minutes ++ ":" ++ pad2 seconds

/-- The formatting the spec describes: the same layout with the documented
constant 86400 seconds per day (`days = sec / 86400`,
`hours = (sec mod 86400) / 3600`, ...).  Used only to compare the code's
behaviour against the spec's words. -/
def secToTimeSpec (sec : Nat) : String :=
  let s := sec % M32
  let days := s / 86400
  let hours := s % 86400 / 3600
  let minutes := s % 3600 / 60
  let seconds := s % 60
  if days > 0 then
    toString days ++ ":" ++ pad2 hours ++ ":" ++ pad2 minutes ++ ":" ++ pad2 seconds
  else
    pad2 hours ++ ":" ++ pad2 minutes ++ ":" ++ pad2 seconds

example : secToTime 3661 = "01:01:01" := by decide
example : secToTime 90061 = "4:01:01:01" := by decide
example : secToTimeSpec 90061 = "1:01:01:01" := by decide

/-- A callback invocation, as observed by the caller: `simple` is a call of the
zero-argument callback set with `setCallback`, `withDur d` a call of the
duration-argument callback set with `setElapsedCallback`, passing `d`. -/
inductive CbEvent where
  | simple : CbEvent
  | withDur : Nat → CbEvent
deriving DecidableEq, Repr

/-- The state of a `timecontrol` object (the private fields of the class in
timecontrol.h).  `uint32_t` fields are Nats kept < 2^32 by every store,
`_elapsedIndex` (`uint8_t`, kept in 0..9 by the code) a Nat, the ten-slot
`_elapsedTimes` ring a 10-element list, and the two function-pointer callbacks
presence flags (`true` iff the pointer is non-null). -/
structure TC where
  timelapse : Nat
  pMillis : Nat
  count : Nat
  state : Bool
  startTime : Nat
  repeatCount : Nat
  pMicros : Nat
  lastElapsedTime : Nat
  elapsedCb : Bool
  useElapsedFirst : Bool
  elapsedTimes : List Nat
  elapsedIndex : Nat
  callback : Bool
deriving DecidableEq, Repr

/-- The callback invocations an event triggers, given the presence flags and
`_useElapsedFirst`, with `d` the duration passed to the duration callback.
This is the common callback block of `elapsed`, `elapsedSeconds`,
`elapsedMicros` and `interruptHandler`. -/
def fireCallbacks (s : TC) (d : Nat) : List CbEvent :=
  if s.useElapsedFirst then
    (if s.elapsedCb then [CbEvent.withDur d] else [])
      ++ (if s.callback then [CbEvent.simple] else [])
  else
    (if s.callback then [CbEvent.simple] else [])
      ++ (if s.elapsedCb then [CbEvent.withDur d] else [])

/-- The default constructor `timecontrol()`: timelapse 0, running, both clock
references and the creation reference taken from the clocks at construction
time, ring zeroed. -/
def mkTimer (nowMillis nowMicros : Nat) : TC :=
  { timelapse := 0, pMillis := nowMillis % M32, count := 0, state := true,
    startTime := nowMillis % M32, repeatCount := 0, pMicros := nowMicros % M32,
    lastElapsedTime := 0, elapsedCb := false, useElapsedFirst := false,
    elapsedTimes := List.replicate 10 0, elapsedIndex := 0, callback := false }

/-- The constructor `timecontrol(uint32_t timelapse, bool state, uint32_t
previousMillis)`: caller-supplied timelapse, running flag and millisecond
reference. -/
def mkTimer3 (timelapse : Nat) (st : Bool) (previousMillis nowMillis nowMicros : Nat) : TC :=
  { timelapse := timelapse % M32, pMillis := previousMillis % M32, count := 0, state := st,
    startTime := nowMillis % M32, repeatCount := 0, pMicros := nowMicros % M32,
    lastElapsedTime := 0, elapsedCb := false, useElapsedFirst := false,
    elapsedTimes := List.replicate 10 0, elapsedIndex := 0, callback := false }

/-- Method `timecontrol::elapsed` (timecontrol.cpp lines 46–67).  `now` and
`nowMicros` are the values the two clock reads return during the call.
Returns the boolean result, the post-state, and the callback invocations. -/
def elapsed (now nowMicros : Nat) (s : TC) : Bool × TC × List CbEvent :=
  if s.state = false then (false, s, [])
  else
    let d := sub32 now s.pMillis
    if s.timelapse ≤ d then
      let s1 : TC :=
        { s with lastElapsedTime := d, pMillis := now % M32, pMicros := nowMicros % M32,
                 elapsedTimes := s.elapsedTimes.set s.elapsedIndex d,
                 elapsedIndex := (s.elapsedIndex + 1) % 10,
                 count := (s.count + 1) % M32 }
      let evs := fireCallbacks s1 d
      let s2 : TC := if 0 < s1.repeatCount ∧ s1.repeatCount ≤ s1.count
                     then { s1 with state := false } else s1
      (true, s2, evs)
    else (false, s, [])

/-- Method `timecontrol::elapsedSeconds` (timecontrol.cpp lines 96–119): the
seconds-granularity variant, comparing second-truncated tick values and
recording the duration as the second difference times 1000 (a `uint32_t`
product, so reduced mod 2^32). -/
def elapsedSeconds (now nowMicros : Nat) (s : TC) : Bool × TC × List CbEvent :=
  if s.state = false then (false, s, [])
  else
    let currentSec := now % M32 / 1000
    let previousSec := s.pMillis / 1000
    let timelapseSec := s.timelapse / 1000
    let diff := sub32 currentSec previousSec
    if timelapseSec ≤ diff then
      let d := diff * 1000 % M32
      let s1 : TC :=
        { s with pMillis := now % M32, pMicros := nowMicros % M32, lastElapsedTime := d,
                 elapsedTimes := s.elapsedTimes.set s.elapsedIndex d,
                 elapsedIndex := (s.elapsedIndex + 1) % 10,
                 count := (s.count + 1) % M32 }
      let evs := fireCallbacks s1 d
      let s2 : TC := if 0 < s1.repeatCount ∧ s1.repeatCount ≤ s1.count
                     then { s1 with state := false } else s1
      (true, s2, evs)
    else (false, s, [])

/-- Method `timecontrol::getElapsedTime` (timecontrol.h, inline):
`_state ? (millis() - pMillis) : 0`. -/
def getElapsedTime (now : Nat) (s : TC) : Nat :=
  if s.state then sub32 now s.pMillis else 0

/-- Handler `timecontrol::interruptHandler` (timecontrol.cpp lines 160–180).  The
static dispatcher runs on the active instance only when the zero-argument
callback pointer is non-null; it counts the event, records
`getElapsedTime()` as the duration, advances both clock references, fires the
callbacks, appends to the ring, and then stops (repeat limit reached) or
resumes the timer if it was paused. -/
def interruptHandler (now nowMicros : Nat) (s : TC) : TC × List CbEvent :=
  if s.callback then
    let d := getElapsedTime now s
    let s1 : TC :=
      { s with count := (s.count + 1) % M32, lastElapsedTime := d,
               pMillis := now % M32, pMicros := nowMicros % M32 }
    let evs := fireCallbacks s1 d
    let s2 : TC :=
      { s1 with elapsedTimes := s1.elapsedTimes.set s1.elapsedIndex d,
                elapsedIndex := (s1.elapsedIndex + 1) % 10 }
    let s3 : TC :=
      if 0 < s2.repeatCount ∧ s2.repeatCount ≤ s2.count then { s2 with state := false }
      else if s2.state = false then { s2 with state := true }
      else s2
    (s3, evs)
  else (s, [])

/-- Method `timecontrol::countdown` (timecontrol.cpp lines 211–225).  `cbPresent`
says whether a non-null callback pointer was passed; the third component of
the result records whether that callback was invoked. -/
def countdown (now : Nat) (cbPresent : Bool) (duration : Nat) (s : TC) : Nat × TC × Bool :=
  let s1 : TC := if s.state = false
                 then { s with pMillis := now % M32, timelapse := duration % M32, state := true }
                 else s
  let e := sub32 now s1.pMillis
  if s1.timelapse ≤ e then
    (0, { s1 with state := false }, cbPresent)
  else
    (s1.timelapse - e, s1, false)

/-- Method `timecontrol::remainingTime` (timecontrol.cpp lines 89–94).  The call can
mutate the timer (it runs `elapsed()` internally), so the result carries the
post-state and any callback invocations that internal check triggered. -/
def remainingTime (now nowMicros : Nat) (s : TC) : Nat × TC × List CbEvent :=
  if s.state = false then (0, s, [])
  else
    let r := elapsed now nowMicros s
    if r.1 then (0, r.2.1, r.2.2)
    else
      let elapsedTime := sub32 now r.2.1.pMillis
      ((if elapsedTime < r.2.1.timelapse then r.2.1.timelapse - elapsedTime else 0),
       r.2.1, r.2.2)

/-- Method `timecontrol::reset` (timecontrol.h, inline): re-reads both clocks into
the references and clears the event counter and last event duration. -/
def reset (now nowMicros : Nat) (s : TC) : TC :=
  { s with pMillis := now % M32, pMicros := nowMicros % M32,
           count := 0, lastElapsedTime := 0 }

/-- The value of a `uint32_t` reinterpreted as `int32_t` (the cast
`(int32_t)_timelapse`). -/
def toInt32 (n : Nat) : Int :=
  if n % M32 < 2147483648 then (n % M32 : Int) else (n % M32 : Int) - (M32 : Int)

/-- Method `timecontrol::adjustTimelapse` (timecontrol.h, inline):
`int32_t newTimelapse = (int32_t)_timelapse + adjustment;
 _timelapse = (newTimelapse > 0) ? newTimelapse : 0;`.
Signed `int32_t` overflow in the addition is undefined behaviour, embedded as
`none`; the final store converts the non-negative result to `uint32_t`. -/
def adjustTimelapse (adjustment : Int) (s : TC) : Option TC :=
  let newTimelapse : Int := toInt32 s.timelapse + adjustment
  if newTimelapse < -2147483648 ∨ 2147483648 ≤ newTimelapse then none
  else some { s with timelapse := if 0 < newTimelapse then newTimelapse.toNat % M32 else 0 }

/-- Method `timecontrol::getAverageElapsedTime` (timecontrol.cpp lines 195–205).
`samples` is a `uint8_t` argument (hence the mod 256); the sum accumulates in
a `uint32_t`.  When `validSamples` is 0 the function divides by zero —
undefined behaviour, embedded as `none`. -/
def getAverageElapsedTime (samples : Nat) (s : TC) : Option Nat :=
  let s0 := samples % 256
  let s1 := if 10 < s0 then 10 else s0
  if s.count = 0 then some 0
  else
    let validSamples := min s1 s.count
    if validSamples = 0 then none
    else
      let sum := (List.range validSamples).foldl
        (fun acc i => (acc + s.elapsedTimes.getD ((s.elapsedIndex + 10 - 1 - i) % 10) 0) % M32) 0
      some (sum / validSamples)

/-- The entries `getAverageElapsedTime` reads: the `k` most recent ring
entries, walking backward from the most recent write at
`_elapsedIndex - 1`. -/
def recentSamples (s : TC) (k : Nat) : List Nat :=
  (List.range k).map (fun i => s.elapsedTimes.getD ((s.elapsedIndex + 10 - 1 - i) % 10) 0)

/-- A concrete running timer used to instantiate the universally quantified
theorems: interval 100 ms, both callbacks registered, simple callback first. -/
def stRun : TC :=
  { timelapse := 100, pMillis := 0, count := 0, state := true, startTime := 0,
    repeatCount := 0, pMicros := 0, lastElapsedTime := 0, elapsedCb := true,
    useElapsedFirst := false, elapsedTimes := List.replicate 10 0,
    elapsedIndex := 0, callback := true }

/-- Accumulating `(acc + g i) % 2^32` along a list (a `uint32_t` sum) computes
the mathematical sum reduced mod 2^32. -/
theorem foldl_mod_sum (g : Nat → Nat) :
    ∀ (l : List Nat) (a : Nat),
      l.foldl (fun acc i => (acc + g i) % M32) (a % M32) = (a + (l.map g).sum) % M32 := by
  intro l
  induction l with
  | nil => intro a; simp
  | cons x xs ih =>
      intro a
      simp only [List.foldl_cons, List.map_cons, List.sum_cons]
      rw [Nat.mod_add_mod, ih (a + g x), Nat.add_assoc]

/-- Unsigned subtraction of a value from itself (after the store reduced it
mod 2^32) is 0. -/
theorem sub32_self (a : Nat) : sub32 a (a % M32) = 0 := by
  unfold sub32 M32
  omega

/-- When no wraparound separates the two reads, `sub32` is plain
subtraction. -/
theorem sub32_of_le {a b : Nat} (h1 : b ≤ a) (h2 : a < M32) : sub32 a b = a - b := by
  unfold sub32 M32 at *
  omega

/-- The state a firing `elapsed()` produces before the repeat-limit check:
duration recorded, both references advanced, ring appended, count
incremented. -/
def firePost (now nm : Nat) (s : TC) : TC :=
  { s with lastElapsedTime := sub32 now s.pMillis, pMillis := now % M32,
           pMicros := nm % M32,
           elapsedTimes := s.elapsedTimes.set s.elapsedIndex (sub32 now s.pMillis),
           elapsedIndex := (s.elapsedIndex + 1) % 10,
           count := (s.count + 1) % M32 }

/-- A paused timer makes `elapsed()` a no-op returning false. -/
theorem elapsed_not_running {s : TC} (now nm : Nat) (h : s.state = false) :
    elapsed now nm s = (false, s, []) := by
  simp [elapsed, h]

/-- Below the interval, `elapsed()` is a no-op returning false. -/
theorem elapsed_below {s : TC} (now nm : Nat) (h1 : s.state = true)
    (h2 : sub32 now s.pMillis < s.timelapse) :
    elapsed now nm s = (false, s, []) := by
  simp [elapsed, h1, Nat.not_le.mpr h2]

/-- At or past the interval on a running timer, `elapsed()` returns true,
produces `firePost` (paused when the nonzero repeat limit is reached), and
fires the callbacks. -/
theorem elapsed_fire {s : TC} (now nm : Nat) (h1 : s.state = true)
    (h2 : s.timelapse ≤ sub32 now s.pMillis) :
    elapsed now nm s =
      (true,
       if 0 < s.repeatCount ∧ s.repeatCount ≤ (s.count + 1) % M32
       then { firePost now nm s with state := false }
       else firePost now nm s,
       fireCallbacks s (sub32 now s.pMillis)) := by
  simp only [elapsed, h1, Bool.true_eq_false, if_false, if_pos h2, firePost]
  by_cases hr : 0 < s.repeatCount ∧ s.repeatCount ≤ (s.count + 1) % M32
  · simp [hr, fireCallbacks]
  · simp [hr, fireCallbacks]

/-- A paused timer makes `remainingTime()` return 0 with no effect. -/
theorem remainingTime_not_running {s : TC} (now nm : Nat) (h : s.state = false) :
    remainingTime now nm s = (0, s, []) := by
  simp [remainingTime, h]

/-- When the internal check fires, `remainingTime()` returns 0 and passes the
check's effects through. -/
theorem remainingTime_fire {s : TC} (now nm : Nat) (h1 : s.state = true)
    (h2 : s.timelapse ≤ sub32 now s.pMillis) :
    remainingTime now nm s = (0, (elapsed now nm s).2.1, (elapsed now nm s).2.2) := by
  have hf := elapsed_fire now nm h1 h2
  simp [remainingTime, h1, hf]

/-- Running and strictly below the interval, `remainingTime()` returns the
ticks left with no effect. -/
theorem remainingTime_below {s : TC} (now nm : Nat) (h1 : s.state = true)
    (h2 : sub32 now s.pMillis < s.timelapse) :
    remainingTime now nm s = (s.timelapse - sub32 now s.pMillis, s, []) := by
  have hf := elapsed_below now nm h1 h2
  simp [remainingTime, h1, hf, h2]

/-- On a running timer with a sub-second interval, the second-truncated
threshold is 0 and `elapsedSeconds()` fires unconditionally. -/
theorem elapsedSeconds_fires_sub1000 {s : TC} (now nm : Nat) (h1 : s.state = true)
    (h2 : s.timelapse < 1000) :
    (elapsedSeconds now nm s).1 = true := by
  simp [elapsedSeconds, h1, Nat.div_eq_of_lt h2]

/-! ## The claims -/

/-- C1.  The spec claims `secToTime` formats with days = sec / 86400 and that
`secToTime(90061)` yields "1:01:01:01".  The code declares
`const uint16_t SECONDS_PER_DAY = 86400;`, whose initializer truncates to
20864, contradicting the constant's own documentation ("The number of seconds
in a day"); so `secToTime(90061)` actually yields "4:01:01:01".  The spec's
formula (`secToTimeSpec`) gives the documented "1:01:01:01"; the sub-day
example 3661 → "01:01:01" agrees because no day division is involved below
20864 seconds. -/
theorem C1_secToTime_day_truncation :
    secToTime 90061 = "4:01:01:01" ∧
    secToTime 3661 = "01:01:01" ∧
    secToTime 90061 ≠ "1:01:01:01" ∧
    secToTimeSpec 90061 = "1:01:01:01" ∧
    secToTimeSpec 3661 = "01:01:01" := by
  decide

/-- C3.  `elapsed()` returns false with no state change (and no callback)
when the timer is not running, and when running but `now - lastTick` (unsigned
32-bit) is below the interval; when running and the interval is reached it
records the duration, advances the reference, appends the duration to the
sample ring, increments the event count, fires the configured callbacks in
the configured order, returns true, and ends paused exactly when the nonzero
repeat limit has been reached. -/
theorem C3_elapsed_transition :
    (∀ (s : TC) (now nm : Nat), s.state = false → elapsed now nm s = (false, s, [])) ∧
    (∀ (s : TC) (now nm : Nat), s.state = true → sub32 now s.pMillis < s.timelapse →
      elapsed now nm s = (false, s, [])) ∧
    (∀ (s : TC) (now nm : Nat), s.state = true → s.timelapse ≤ sub32 now s.pMillis →
      (elapsed now nm s).1 = true ∧
      ((elapsed now nm s).2.1).lastElapsedTime = sub32 now s.pMillis ∧
      ((elapsed now nm s).2.1).pMillis = now % M32 ∧
      ((elapsed now nm s).2.1).pMicros = nm % M32 ∧
      ((elapsed now nm s).2.1).elapsedTimes
        = s.elapsedTimes.set s.elapsedIndex (sub32 now s.pMillis) ∧
      ((elapsed now nm s).2.1).elapsedIndex = (s.elapsedIndex + 1) % 10 ∧
      ((elapsed now nm s).2.1).count = (s.count + 1) % M32 ∧
      (elapsed now nm s).2.2 = fireCallbacks s (sub32 now s.pMillis) ∧
      (((elapsed now nm s).2.1).state = false ↔
        (0 < s.repeatCount ∧ s.repeatCount ≤ (s.count + 1) % M32))) := by
  refine ⟨?_, ?_, ?_⟩
  · intro s now nm h
    simp [elapsed, h]
  · intro s now nm h1 h2
    simp [elapsed, h1, Nat.not_le.mpr h2]
  · intro s now nm h1 h2
    simp only [elapsed, h1, Bool.true_eq_false, if_false, if_pos h2]
    by_cases hr : 0 < s.repeatCount ∧ s.repeatCount ≤ (s.count + 1) % M32
    · simp [hr, fireCallbacks]
    · simp [hr, fireCallbacks, h1]

/-- Witness for C3: a concrete not-running call, a concrete below-interval
call, and a concrete qualifying call on `stRun`. -/
theorem C3_elapsed_transition_witness :
    elapsed 50 0 { stRun with state := false }
      = (false, { stRun with state := false }, []) ∧
    elapsed 50 0 stRun = (false, stRun, []) ∧
    (elapsed 150 0 stRun).1 = true ∧
    ((elapsed 150 0 stRun).2.1).count = (stRun.count + 1) % M32 ∧
    (elapsed 150 0 stRun).2.2 = fireCallbacks stRun (sub32 150 stRun.pMillis) :=
  ⟨C3_elapsed_transition.1 _ 50 0 (by decide),
   C3_elapsed_transition.2.1 stRun 50 0 (by decide) (by decide),
   (C3_elapsed_transition.2.2 stRun 150 0 (by decide) (by decide)).1,
   (C3_elapsed_transition.2.2 stRun 150 0 (by decide) (by decide)).2.2.2.2.2.2.1,
   (C3_elapsed_transition.2.2 stRun 150 0 (by decide) (by decide)).2.2.2.2.2.2.2.1⟩

/-- C4.  With a nonzero repeat limit, a qualifying `elapsed()` that makes the
incremented event count reach the limit returns true and leaves the timer
paused; a further `elapsed()` on the paused timer returns false with no side
effects; and a zero repeat limit never changes the running flag. -/
theorem C4_repeat_limit :
    (∀ (s : TC) (now nm : Nat), s.state = true → s.timelapse ≤ sub32 now s.pMillis →
      s.repeatCount ≠ 0 → s.repeatCount ≤ (s.count + 1) % M32 →
      (elapsed now nm s).1 = true ∧ ((elapsed now nm s).2.1).state = false) ∧
    (∀ (s : TC) (now nm : Nat), s.state = false → elapsed now nm s = (false, s, [])) ∧
    (∀ (s : TC) (now nm : Nat), s.repeatCount = 0 →
      ((elapsed now nm s).2.1).state = s.state) := by
  refine ⟨?_, ?_, ?_⟩
  · intro s now nm h1 h2 h3 h4
    have hr : 0 < s.repeatCount ∧ s.repeatCount ≤ (s.count + 1) % M32 :=
      ⟨Nat.pos_of_ne_zero h3, h4⟩
    simp [elapsed, h1, h2, hr]
  · intro s now nm h
    simp [elapsed, h]
  · intro s now nm h
    by_cases hs : s.state = true
    · by_cases h2 : s.timelapse ≤ sub32 now s.pMillis
      · simp [elapsed, hs, h2, h]
      · simp [elapsed, hs, Nat.not_le.mp h2, h2]
    · have hs' : s.state = false := by
        cases hx : s.state
        · rfl
        · exact absurd hx hs
      simp [elapsed, hs']

/-- Witness for C4: repeat limit 3 — the third qualifying event pauses the
timer, a fourth call on the paused timer is a no-op, and with repeat limit 0 a
qualifying event leaves the flag unchanged. -/
theorem C4_repeat_limit_witness :
    ((elapsed 300 0 { stRun with repeatCount := 3, count := 2, pMillis := 200 }).1 = true ∧
     ((elapsed 300 0 { stRun with repeatCount := 3, count := 2, pMillis := 200 }).2.1).state
       = false) ∧
    elapsed 400 0 { stRun with repeatCount := 3, count := 3, pMillis := 300, state := false }
      = (false,
         { stRun with repeatCount := 3, count := 3, pMillis := 300, state := false }, []) ∧
    ((elapsed 300 0 { stRun with count := 2, pMillis := 200 }).2.1).state
      = ({ stRun with count := 2, pMillis := 200 } : TC).state :=
  ⟨C4_repeat_limit.1 _ 300 0 (by decide) (by decide) (by decide) (by decide),
   C4_repeat_limit.2.1 _ 400 0 (by decide),
   C4_repeat_limit.2.2 _ 300 0 (by decide)⟩

/-- C9.  `reset()` sets the millisecond and microsecond references from the
clocks and zeroes the event count and the last event duration, and changes
nothing else: interval, running flag, creation reference, repeat limit,
sample ring, ring index and both callback slots are all preserved. -/
theorem C9_reset_frame (s : TC) (now nm : Nat) :
    (reset now nm s).pMillis = now % M32 ∧
    (reset now nm s).pMicros = nm % M32 ∧
    (reset now nm s).count = 0 ∧
    (reset now nm s).lastElapsedTime = 0 ∧
    (reset now nm s).timelapse = s.timelapse ∧
    (reset now nm s).state = s.state ∧
    (reset now nm s).startTime = s.startTime ∧
    (reset now nm s).repeatCount = s.repeatCount ∧
    (reset now nm s).elapsedTimes = s.elapsedTimes ∧
    (reset now nm s).elapsedIndex = s.elapsedIndex ∧
    (reset now nm s).elapsedCb = s.elapsedCb ∧
    (reset now nm s).useElapsedFirst = s.useElapsedFirst ∧
    (reset now nm s).callback = s.callback := by
  simp [reset]

/-- A timer that has recorded one event of duration 7 ms. -/
def stOneEvent : TC :=
  { stRun with count := 1, elapsedTimes := [7, 0, 0, 0, 0, 0, 0, 0, 0, 0], elapsedIndex := 1 }

/-- A timer that has recorded five events of duration 100 ms each. -/
def stFiveEvents : TC :=
  { stRun with count := 5, elapsedTimes := [100, 100, 100, 100, 100, 0, 0, 0, 0, 0],
               elapsedIndex := 5 }

/-- Counterexample to C2: with one event recorded (`eventCount = 1`),
`getAverageElapsedTime(0)` reaches `sum / validSamples` with
`validSamples = min(0, 1) = 0` — a division by zero (undefined behaviour,
embedded as `none`), not a clamped/zero result. -/
theorem C2_average_zero_samples_counterexample :
    stOneEvent.count ≠ 0 ∧ getAverageElapsedTime 0 stOneEvent = none := by
  decide

/-- C2 (amended).  `getAverageElapsedTime` returns 0 when no events have been
recorded, and for every `samples` argument whose `uint8_t` value is nonzero it
is non-failing and returns the 32-bit sum of the most recent
min(samples, eventCount, 10) sample-ring entries (walking backward from the
most recent write) divided by that number of entries; only `samples == 0`
with `eventCount > 0` divides by zero. -/
theorem C2_average_amended :
    (∀ (samples : Nat) (s : TC), s.count = 0 →
      getAverageElapsedTime samples s = some 0) ∧
    (∀ (samples : Nat) (s : TC), 0 < samples % 256 →
      getAverageElapsedTime samples s =
        some ((recentSamples s (min (min (samples % 256) 10) s.count)).sum % M32
               / min (min (samples % 256) 10) s.count)) := by
  constructor
  · intro samples s h
    simp [getAverageElapsedTime, h]
  · intro samples s h
    by_cases hc : s.count = 0
    · simp [getAverageElapsedTime, hc, recentSamples]
    · have hk0 : (if 10 < samples % 256 then 10 else samples % 256)
          = min (samples % 256) 10 := by
        split <;> omega
      have hne : min (min (samples % 256) 10) s.count ≠ 0 := by
        have h1 : 0 < min (samples % 256) 10 := by omega
        have h2 : 0 < s.count := Nat.pos_of_ne_zero hc
        omega
      simp only [getAverageElapsedTime, hc, if_false, hk0, if_neg hne]
      have hf := foldl_mod_sum
        (fun i => s.elapsedTimes.getD ((s.elapsedIndex + 10 - 1 - i) % 10) 0)
        (List.range (min (min (samples % 256) 10) s.count)) 0
      rw [Nat.zero_mod] at hf
      rw [hf, recentSamples, Nat.zero_add]

/-- Witness for C2: a timer with five recorded events of duration 100 each
averages to 100 over 3 samples, through the amended theorem. -/
theorem C2_average_amended_witness :
    getAverageElapsedTime 3 stFiveEvents =
      some ((recentSamples stFiveEvents (min (min (3 % 256) 10) stFiveEvents.count)).sum % M32
             / min (min (3 % 256) 10) stFiveEvents.count) ∧
    getAverageElapsedTime 3 stFiveEvents = some 100 :=
  ⟨C2_average_amended.2 3 stFiveEvents (by decide), by decide⟩

/-- Counterexample to C5: the interrupt dispatcher is guarded by
`_instance->_callback`, so with only the duration-argument callback
registered a trigger is a complete no-op — no counter update, no timestamp
update, no callback fired — contradicting the claim that it behaves like a
manual check() success for every registered-callback configuration. -/
theorem C5_interrupt_only_duration_callback_counterexample :
    ({ stRun with callback := false } : TC).elapsedCb = true ∧
    ({ stRun with callback := false } : TC).state = true ∧
    interruptHandler 1000 1 { stRun with callback := false }
      = ({ stRun with callback := false }, []) ∧
    (interruptHandler 1000 1 { stRun with callback := false }).1.count
      ≠ (({ stRun with callback := false } : TC).count + 1) % M32 := by
  decide

/-- C5 (amended).  Whenever the zero-argument callback is registered, an
interrupt trigger increments the event count, records
`getElapsedTime()` as the last event duration, advances both clock
references, fires the configured callbacks in the configured order, appends
the duration to the sample ring, and ends paused exactly when the nonzero
repeat limit is reached (auto-resuming a previously paused timer otherwise);
when the zero-argument callback is absent the trigger does nothing. -/
theorem C5_interrupt_amended (s : TC) (now nm : Nat) (h : s.callback = true) :
    (interruptHandler now nm s).1.count = (s.count + 1) % M32 ∧
    (interruptHandler now nm s).1.lastElapsedTime = getElapsedTime now s ∧
    (interruptHandler now nm s).1.pMillis = now % M32 ∧
    (interruptHandler now nm s).1.pMicros = nm % M32 ∧
    (interruptHandler now nm s).2 = fireCallbacks s (getElapsedTime now s) ∧
    (interruptHandler now nm s).1.elapsedTimes
      = s.elapsedTimes.set s.elapsedIndex (getElapsedTime now s) ∧
    (interruptHandler now nm s).1.elapsedIndex = (s.elapsedIndex + 1) % 10 ∧
    ((interruptHandler now nm s).1.state = false ↔
      (0 < s.repeatCount ∧ s.repeatCount ≤ (s.count + 1) % M32)) := by
  by_cases hr : 0 < s.repeatCount ∧ s.repeatCount ≤ (s.count + 1) % M32
  · simp [interruptHandler, h, hr, fireCallbacks, getElapsedTime]
  · by_cases hs : s.state = false
    · simp [interruptHandler, h, hr, hs, fireCallbacks, getElapsedTime]
    · have hs' : s.state = true := by
        cases hx : s.state
        · exact absurd hx hs
        · rfl
      simp [interruptHandler, h, hr, hs', fireCallbacks, getElapsedTime]

/-- Witness for C5 at a concrete running timer with both callbacks set. -/
theorem C5_interrupt_amended_witness :
    (interruptHandler 1000 7 stRun).1.count = (stRun.count + 1) % M32 ∧
    (interruptHandler 1000 7 stRun).2 = fireCallbacks stRun (getElapsedTime 1000 stRun) ∧
    ((interruptHandler 1000 7 stRun).1.state = false ↔
      (0 < stRun.repeatCount ∧ stRun.repeatCount ≤ (stRun.count + 1) % M32)) :=
  ⟨(C5_interrupt_amended stRun 1000 7 (by decide)).1,
   (C5_interrupt_amended stRun 1000 7 (by decide)).2.2.2.2.1,
   (C5_interrupt_amended stRun 1000 7 (by decide)).2.2.2.2.2.2.2⟩

/-- Counterexample to C6: both constructors leave the timer running
(`_state = true`) with the default interval 0, so the very first
`countdown(5000, cb)` call on a fresh timer does NOT arm it and return
~5000 — it completes immediately: returns 0, invokes the callback, and
pauses.  Only the second call arms. -/
theorem C6_countdown_first_call_counterexample :
    (mkTimer 0 0).state = true ∧
    (countdown 5 true 5000 (mkTimer 0 0)).1 = 0 ∧
    (countdown 5 true 5000 (mkTimer 0 0)).2.2 = true ∧
    ((countdown 5 true 5000 (mkTimer 0 0)).2.1).state = false ∧
    (countdown 5 true 5000 (mkTimer 0 0)).1 ≠ 5000 := by
  decide

/-- C6 (amended).  Whenever the timer is not running, `countdown(duration,
cb)` arms it — interval := duration, running, reference := now — and returns
the full duration (a zero duration completes on the same call: returns 0,
fires the callback, pauses); whenever it is running and `duration` ticks have
passed since the reference it pauses, fires the callback once, and returns 0
(so the next call re-arms); otherwise it returns the remaining ticks with no
state change.  A fresh timer is constructed running with interval 0, so its
first `countdown` call completes immediately rather than arming. -/
theorem C6_countdown_amended :
    (∀ (s : TC) (now : Nat) (cb : Bool) (duration : Nat),
      s.state = false → 0 < duration % M32 →
      countdown now cb duration s
        = (duration % M32,
           { s with pMillis := now % M32, timelapse := duration % M32, state := true },
           false)) ∧
    (∀ (s : TC) (now : Nat) (cb : Bool) (duration : Nat),
      s.state = false → duration % M32 = 0 →
      countdown now cb duration s
        = (0, { s with pMillis := now % M32, timelapse := 0, state := false }, cb)) ∧
    (∀ (s : TC) (now : Nat) (cb : Bool) (duration : Nat),
      s.state = true → s.timelapse ≤ sub32 now s.pMillis →
      countdown now cb duration s = (0, { s with state := false }, cb)) ∧
    (∀ (s : TC) (now : Nat) (cb : Bool) (duration : Nat),
      s.state = true → sub32 now s.pMillis < s.timelapse →
      countdown now cb duration s = (s.timelapse - sub32 now s.pMillis, s, false)) := by
  refine ⟨?_, ?_, ?_, ?_⟩
  · intro s now cb duration h1 h2
    have hz := sub32_self now
    simp only [countdown, h1, if_true, hz]
    rw [if_neg (by omega)]
    simp [hz]
  · intro s now cb duration h1 h2
    have hz := sub32_self now
    simp only [countdown, h1, if_true, hz, h2]
    simp
  · intro s now cb duration h1 h2
    simp [countdown, h1, h2]
  · intro s now cb duration h1 h2
    simp [countdown, h1, Nat.not_le.mpr h2]

/-- A paused timer (manually stopped), used to arm countdowns. -/
def stPaused : TC := { stRun with state := false }

/-- A timer mid-countdown: armed at tick 100 with duration 5000. -/
def stArmed : TC := { stRun with pMillis := 100, timelapse := 5000 }

/-- Witness for C6: arming a paused timer returns the full 5000 and marks it
running; at tick 5100 the countdown completes (0, paused, callback fired);
below the deadline it returns the remaining ticks; after completion the next
call re-arms with a new duration. -/
theorem C6_countdown_amended_witness :
    countdown 100 true 5000 stPaused
      = (5000 % M32,
         { stPaused with pMillis := 100 % M32, timelapse := 5000 % M32, state := true },
         false) ∧
    countdown 5100 true 5000 stArmed = (0, { stArmed with state := false }, true) ∧
    countdown 4000 true 5000 stArmed
      = (stArmed.timelapse - sub32 4000 stArmed.pMillis, stArmed, false) ∧
    countdown 5200 true 7000 { stArmed with state := false }
      = (7000 % M32,
         { { stArmed with state := false } with
            pMillis := 5200 % M32, timelapse := 7000 % M32, state := true },
         false) :=
  ⟨C6_countdown_amended.1 stPaused 100 true 5000 (by decide) (by decide),
   C6_countdown_amended.2.2.1 stArmed 5100 true 5000 (by decide) (by decide),
   C6_countdown_amended.2.2.2 stArmed 4000 true 5000 (by decide) (by decide),
   C6_countdown_amended.1 { stArmed with state := false } 5200 true 7000
     (by decide) (by decide)⟩

/-- A running timer with interval 1000 ms and repeat limit 1. -/
def stRepeatOne : TC := { stRun with timelapse := 1000, repeatCount := 1 }

/-- Counterexample to C7: on a boundary crossing that reaches the repeat
limit, the internal check pauses the timer, so immediately afterwards
`remainingTime()` returns 0, not the full interval — against the claim's
"for every running timer, including one whose repeat limit was reached on
that crossing". -/
theorem C7_remaining_repeat_counterexample :
    (remainingTime 1000 0 stRepeatOne).1 = 0 ∧
    ((remainingTime 1000 0 stRepeatOne).2.1).state = false ∧
    (remainingTime 1000 0 ((remainingTime 1000 0 stRepeatOne).2.1)).1 = 0 ∧
    (remainingTime 1000 0 ((remainingTime 1000 0 stRepeatOne).2.1)).1
      ≠ stRepeatOne.timelapse := by
  decide

/-- C7 (amended).  `remainingTime()` returns 0 when paused; returns 0 when a
boundary was just crossed (the internal check fires as a side effect);
otherwise returns `interval - (now - lastTick)` with no state change.
Immediately after a crossing on which the nonzero repeat limit was NOT
reached, a further call at the same tick returns the full interval; if the
repeat limit WAS reached on the crossing, the timer is left paused and the
further call returns 0. -/
theorem C7_remaining_amended :
    (∀ (s : TC) (now nm : Nat), s.state = false → remainingTime now nm s = (0, s, [])) ∧
    (∀ (s : TC) (now nm : Nat), s.state = true → s.timelapse ≤ sub32 now s.pMillis →
      (remainingTime now nm s).1 = 0) ∧
    (∀ (s : TC) (now nm : Nat), s.state = true → sub32 now s.pMillis < s.timelapse →
      remainingTime now nm s = (s.timelapse - sub32 now s.pMillis, s, [])) ∧
    (∀ (s : TC) (now nm : Nat), s.state = true → s.timelapse ≤ sub32 now s.pMillis →
      ¬(0 < s.repeatCount ∧ s.repeatCount ≤ (s.count + 1) % M32) →
      (remainingTime now nm ((remainingTime now nm s).2.1)).1 = s.timelapse) ∧
    (∀ (s : TC) (now nm : Nat), s.state = true → s.timelapse ≤ sub32 now s.pMillis →
      0 < s.repeatCount → s.repeatCount ≤ (s.count + 1) % M32 →
      ((remainingTime now nm s).2.1).state = false ∧
      (remainingTime now nm ((remainingTime now nm s).2.1)).1 = 0) := by
  refine ⟨?_, ?_, ?_, ?_, ?_⟩
  · intro s now nm h
    exact remainingTime_not_running now nm h
  · intro s now nm h1 h2
    rw [remainingTime_fire now nm h1 h2]
  · intro s now nm h1 h2
    exact remainingTime_below now nm h1 h2
  · intro s now nm h1 h2 hnr
    have hf := elapsed_fire now nm h1 h2
    rw [if_neg hnr] at hf
    have hpost : ((remainingTime now nm s).2.1) = firePost now nm s := by
      rw [remainingTime_fire now nm h1 h2, hf]
    rw [hpost]
    have hstate : (firePost now nm s).state = true := by simp [firePost, h1]
    have hpm : (firePost now nm s).pMillis = now % M32 := by simp [firePost]
    have htl : (firePost now nm s).timelapse = s.timelapse := by simp [firePost]
    by_cases h0 : s.timelapse = 0
    · have hle : (firePost now nm s).timelapse
          ≤ sub32 now (firePost now nm s).pMillis := by
        rw [htl, h0]
        exact Nat.zero_le _
      rw [remainingTime_fire now nm hstate hle, h0]
    · have hlt : sub32 now (firePost now nm s).pMillis
          < (firePost now nm s).timelapse := by
        rw [htl, hpm, sub32_self]
        exact Nat.pos_of_ne_zero h0
      rw [remainingTime_below now nm hstate hlt, hpm, sub32_self, htl, Nat.sub_zero]
  · intro s now nm h1 h2 h3 h4
    have hf := elapsed_fire now nm h1 h2
    rw [if_pos ⟨h3, h4⟩] at hf
    have hpost : ((remainingTime now nm s).2.1)
        = { firePost now nm s with state := false } := by
      rw [remainingTime_fire now nm h1 h2, hf]
    constructor
    · rw [hpost]
    · rw [hpost, remainingTime_not_running now nm (by simp)]

/-- Witness for C7 on concrete timers: paused, just-crossed, mid-interval,
reset-to-full-interval, and repeat-limit-pause cases. -/
theorem C7_remaining_amended_witness :
    remainingTime 30 0 stPaused = (0, stPaused, []) ∧
    (remainingTime 1000 0 stRun).1 = 0 ∧
    remainingTime 30 0 stRun = (stRun.timelapse - sub32 30 stRun.pMillis, stRun, []) ∧
    (remainingTime 1000 0 ((remainingTime 1000 0 stRun).2.1)).1 = stRun.timelapse ∧
    (((remainingTime 1000 0 stRepeatOne).2.1).state = false ∧
     (remainingTime 1000 0 ((remainingTime 1000 0 stRepeatOne).2.1)).1 = 0) :=
  ⟨C7_remaining_amended.1 stPaused 30 0 (by decide),
   C7_remaining_amended.2.1 stRun 1000 0 (by decide) (by decide),
   C7_remaining_amended.2.2.1 stRun 30 0 (by decide) (by decide),
   C7_remaining_amended.2.2.2.1 stRun 1000 0 (by decide) (by decide) (by decide),
   C7_remaining_amended.2.2.2.2 stRepeatOne 1000 0 (by decide) (by decide)
     (by decide) (by decide)⟩

/-- Counterexample to C8: the claim quantifies over every current interval
value, but `adjustTimelapse` casts the `uint32_t` interval to `int32_t`
first, so an interval of 3000000000 (≥ 2^31, reachable through
`setTimelapse`) is treated as the negative value −1294967296 and a zero
adjustment clamps it to 0 instead of leaving 3000000000. -/
theorem C8_adjust_cast_counterexample :
    adjustTimelapse 0 { stRun with timelapse := 3000000000 }
      = some { stRun with timelapse := 0 } ∧
    ({ stRun with timelapse := 3000000000 } : TC).timelapse ≠ 0 := by
  decide

/-- C8 (amended).  For every interval below 2^31 and every `int32_t`
adjustment whose mathematical sum with the interval stays within the
`int32_t` range (no undefined signed overflow), `adjustTimelapse` sets the
interval to `interval + adjustment` clamped at 0 (`Int.toNat` of the sum) and
never underflows; intervals ≥ 2^31 are misread as negative by the cast. -/
theorem C8_adjust_amended (s : TC) (adjustment : Int)
    (h1 : s.timelapse < 2147483648)
    (h2 : -2147483648 ≤ (s.timelapse : Int) + adjustment)
    (h3 : (s.timelapse : Int) + adjustment < 2147483648) :
    adjustTimelapse adjustment s
      = some { s with timelapse := ((s.timelapse : Int) + adjustment).toNat } := by
  have hmod : s.timelapse % M32 = s.timelapse := by
    unfold M32
    omega
  have htl : toInt32 s.timelapse = (s.timelapse : Int) := by
    unfold toInt32
    rw [if_pos (by rw [hmod]; exact h1)]
    unfold M32
    omega
  unfold adjustTimelapse
  rw [htl, if_neg (by omega)]
  by_cases hx : 0 < (s.timelapse : Int) + adjustment
  · rw [if_pos hx]
    have hlt : ((s.timelapse : Int) + adjustment).toNat < M32 := by
      unfold M32
      omega
    rw [Nat.mod_eq_of_lt hlt]
  · rw [if_neg hx]
    have h0 : ((s.timelapse : Int) + adjustment).toNat = 0 := by omega
    rw [h0]

/-- Witness for C8: the spec's own example — interval 500, adjustment −1000 —
clamps to 0 rather than underflowing. -/
theorem C8_adjust_amended_witness :
    adjustTimelapse (-1000) { stRun with timelapse := 500 }
      = some { stRun with
                timelapse := ((({ stRun with timelapse := 500 } : TC).timelapse : Int)
                               + (-1000)).toNat } ∧
    ((({ stRun with timelapse := 500 } : TC).timelapse : Int) + (-1000)).toNat = 0 :=
  ⟨C8_adjust_amended { stRun with timelapse := 500 } (-1000)
     (by decide) (by decide) (by decide),
   by decide⟩

/-- A running 500 ms timer whose millisecond reference sits just below the
32-bit wrap point, as the three-argument constructor can produce directly. -/
def stNearWrap : TC := mkTimer3 500 true 4294966296 0 0

/-- Counterexample to C10: the claim says the recorded `lastEventDuration` is
always a whole multiple of 1000 ms.  With the millisecond reference just
below the 32-bit wrap and the clock past it, the `uint32_t` product
`(currentSec - previousSec) * 1000` overflows: the sub-second timer fires,
but records 1296 ms, which is not a multiple of 1000. -/
theorem C10_elapsedSeconds_wrap_counterexample :
    stNearWrap.state = true ∧ stNearWrap.timelapse < 1000 ∧
    (elapsedSeconds 500 0 stNearWrap).1 = true ∧
    ((elapsedSeconds 500 0 stNearWrap).2.1).lastElapsedTime = 1296 ∧
    ¬ (1000 ∣ ((elapsedSeconds 500 0 stNearWrap).2.1).lastElapsedTime) := by
  decide

/-- C10 (amended).  For every running timer with interval < 1000 ms,
`elapsedSeconds()` fires on every single call (the second-truncated threshold
is 0); the recorded `lastEventDuration` is a whole multiple of 1000 whenever
the second-truncated clock has not wrapped past the reference (it is the
second difference times 1000, a `uint32_t` product that can otherwise
overflow); and the variant is not behaviorally consistent with the
millisecond `elapsed()`: in the same state, below the interval, `elapsed()`
returns false while `elapsedSeconds()` returns true. -/
theorem C10_elapsedSeconds_subsecond :
    (∀ (s : TC) (now nm : Nat), s.state = true → s.timelapse < 1000 →
      (elapsedSeconds now nm s).1 = true) ∧
    (∀ (s : TC) (now nm : Nat), s.state = true → s.timelapse < 1000 →
      s.pMillis < M32 → s.pMillis / 1000 ≤ now % M32 / 1000 →
      1000 ∣ ((elapsedSeconds now nm s).2.1).lastElapsedTime) ∧
    (∀ (s : TC) (now nm : Nat), s.state = true → s.timelapse < 1000 →
      sub32 now s.pMillis < s.timelapse →
      (elapsed now nm s).1 = false ∧ (elapsedSeconds now nm s).1 = true) := by
  refine ⟨?_, ?_, ?_⟩
  · intro s now nm h1 h2
    exact elapsedSeconds_fires_sub1000 now nm h1 h2
  · intro s now nm h1 h2 h3 h4
    have ha : now % M32 / 1000 < M32 :=
      Nat.lt_of_le_of_lt (Nat.div_le_self _ _) (Nat.mod_lt _ (by decide))
    have hd : sub32 (now % M32 / 1000) (s.pMillis / 1000)
        = now % M32 / 1000 - s.pMillis / 1000 := sub32_of_le h4 ha
    have hbound : (now % M32 / 1000 - s.pMillis / 1000) * 1000 < M32 := by
      have hnow : now % M32 < M32 := Nat.mod_lt _ (by decide)
      unfold M32 at *
      omega
    simp only [elapsedSeconds, h1, Bool.true_eq_false, if_false,
               Nat.div_eq_of_lt h2, Nat.zero_le, if_pos, if_true]
    simp only [hd, Nat.mod_eq_of_lt hbound]
    by_cases hr : 0 < s.repeatCount ∧ s.repeatCount ≤ (s.count + 1) % M32
    · simp [hr]
    · simp [hr]
  · intro s now nm h1 h2 h3
    constructor
    · rw [elapsed_below now nm h1 h3]
    · exact elapsedSeconds_fires_sub1000 now nm h1 h2

/-- Witness for C10 on `stRun` (interval 100 ms): fires at the same tick as
the reference, records multiples of 1000 without wrap, and disagrees with
`elapsed()` mid-interval. -/
theorem C10_elapsedSeconds_subsecond_witness :
    (elapsedSeconds 0 0 stRun).1 = true ∧
    1000 ∣ ((elapsedSeconds 5500 0 stRun).2.1).lastElapsedTime ∧
    ((elapsed 50 0 stRun).1 = false ∧ (elapsedSeconds 50 0 stRun).1 = true) :=
  ⟨C10_elapsedSeconds_subsecond.1 stRun 0 0 (by decide) (by decide),
   C10_elapsedSeconds_subsecond.2.1 stRun 5500 0 (by decide) (by decide)
     (by decide) (by decide),
   C10_elapsedSeconds_subsecond.2.2 stRun 50 0 (by decide) (by decide) (by decide)⟩

end Timecontrol
